import Mathlib

/-!
Verification of the usblock repository (usblock.py and usblockdown.py)
against its natural-language specification.

The development is a shallow embedding of the two Python programs:

* pure helpers (`to_int`, `str(int)`, `path.rsplit('/', 1)[1]`) become Lean
  functions on `String` / `List Char`, written with structural recursion so
  that every concrete run reduces inside the kernel;
* the sysfs / stdin world is an explicit oracle (`Env`): lists giving, in
  order, the outcome of each stdin read, each `authorized` write attempt,
  each post-unlock existence check, and each `bConfigurationValue` read;
* every stateful function of `usblock.py` (`UsbDevice.__init__`,
  `get_active_configuration`, `__handle_device`, `__handle_configuration`,
  `__handle_configuration_error`, `__unlock_single_interface`, `__lock`,
  `__monitor`, plus the prompt loops of `main`) becomes a Lean function
  threading the oracle and returning the produced trace of prompts and
  sysfs actions together with an explicit outcome (normal return, Python
  `TypeError` / `ValueError` escaping, blocked on input, fuel exhaustion
  for the one recursive call).
-/

namespace USBlock

/-- Embedding of Python `int(c)` for a single character: the decimal digit
value of `c`, or `none` when `c` is not an ASCII digit. -/
def pyDigit (c : Char) : Option Nat :=
  if c = '0' then some 0 else if c = '1' then some 1 else if c = '2' then some 2
  else if c = '3' then some 3 else if c = '4' then some 4 else if c = '5' then some 5
  else if c = '6' then some 6 else if c = '7' then some 7 else if c = '8' then some 8
  else if c = '9' then some 9 else none

/-- The ASCII whitespace characters Python `int()` strips from both ends of
its argument (space, tab, newline, carriage return, vertical tab, form
feed).  Unicode whitespace is not modelled. -/
def isPySpace (c : Char) : Bool :=
  c == ' ' || c == '\t' || c == '\n' || c == '\r' || c == '\x0b' || c == '\x0c'

/-- Accumulator loop for decimal parsing after at least one digit has been
consumed: fails on the first non-digit, except that a single underscore is
allowed (and skipped) when a digit follows it, matching Python `int()`
grouping underscores. -/
def parseDigitsUnd : List Char → Nat → Option Nat
  | [], acc => some acc
  | '_' :: rest, acc =>
    match rest with
    | [] => none
    | c :: _ =>
      match pyDigit c with
      | some _ => parseDigitsUnd rest acc
      | none => none
  | c :: rest, acc =>
    match pyDigit c with
    | some d => parseDigitsUnd rest (acc * 10 + d)
    | none => none

/-- Embedding of `to_int` from usblock.py lines 39-45: Python `int(s)`,
`None` (here `none`) when the conversion raises.  Like Python `int()` it
strips surrounding whitespace, accepts one optional leading plus or minus
sign immediately followed by at least one digit, and allows single
underscores between digits; only unicode digits and unicode whitespace are
not modelled. -/
def toIntPy (s : String) : Option Int :=
  match (((s.data.dropWhile isPySpace).reverse.dropWhile isPySpace).reverse : List Char) with
  | '-' :: c :: rest =>
    match pyDigit c with
    | some d => (parseDigitsUnd rest d).map (fun n => -(n : Int))
    | none => none
  | '+' :: c :: rest =>
    match pyDigit c with
    | some d => (parseDigitsUnd rest d).map (fun n => (n : Int))
    | none => none
  | c :: rest =>
    match pyDigit c with
    | some d => (parseDigitsUnd rest d).map (fun n => (n : Int))
    | none => none
  | [] => none

/-- Helper for `rsplitLast`: the characters after the last slash. -/
def lastComponentAux : List Char → List Char → List Char
  | [], cur => cur
  | c :: rest, cur =>
    if c = '/' then lastComponentAux rest [] else lastComponentAux rest (cur ++ [c])

/-- Embedding of Python `path.rsplit('/', 1)[1]` as used by usblock.py lines
282, 299 and 344 and usblockdown.py lines 129 and 145: the final component
of a slash-separated path.  (On a string with no slash the Python original
raises IndexError; every call site passes a sysfs path containing slashes,
so that corner is immaterial.) -/
def rsplitLast (s : String) : String := String.mk (lastComponentAux s.data [])

/-- Least-significant-first decimal digits of `n`, with explicit fuel so the
recursion is structural (fuel `n` always suffices since `n / 10 < n`). -/
def natToDigitsRev : Nat → Nat → List Nat
  | 0, _ => []
  | fuel + 1, n => if n = 0 then [] else (n % 10) :: natToDigitsRev fuel (n / 10)

/-- Decimal digits of `n`, most significant first; `0` renders as `[0]`. -/
def natDigits (n : Nat) : List Nat := if n = 0 then [0] else (natToDigitsRev n n).reverse

/-- Embedding of Python `str(n)` for the non-negative integers interpolated
into sysfs interface paths: the decimal rendering without leading zeros. -/
def pyStr (n : Nat) : String := String.mk ((natDigits n).map Nat.digitChar)

/-! ## Data model: UsbDevice (usblock.py lines 79-188) -/

/-- One USB interface of a configuration, as surfaced by the descriptor
provider (pyusb): its index within the configuration and its alternate
setting number.  Class strings only feed printed text and are omitted. -/
structure Interface where
  index : Nat
  bAlternateSetting : Nat
deriving DecidableEq, Repr

/-- One USB configuration: its `bConfigurationValue` byte, its `index`
(pyusb exposes the 0-based enumeration position) and its interfaces. -/
structure Configuration where
  bConfigurationValue : Nat
  index : Nat
  interfaces : List Interface
deriving DecidableEq, Repr

/-- The state a fully constructed `UsbDevice` wrapper holds: the sysfs path
it was created from and the configuration list `self.__cfgs` copied from
the matching live pyusb device.  `self.__cfgs_map` is recomputed from
`cfgs` by `cfgsMap` below; the Python object stores it once at `__init__`
time and never mutates it, so the derived form is equivalent. -/
structure UsbDeviceState where
  path : String
  cfgs : List Configuration
deriving DecidableEq, Repr

/-- Embedding of the Python dict assignment `m[k] = v` on an
insertion-ordered association list: an existing key keeps its position and
gets the new value, a fresh key is appended. -/
def dictInsert (m : List (Nat × Nat)) (k v : Nat) : List (Nat × Nat) :=
  if m.any (fun p => p.1 == k) then
    m.map (fun p => if p.1 == k then (k, v) else p)
  else m ++ [(k, v)]

/-- Embedding of Python `m[k]`: the value stored at key `k`, `none` for the
KeyError case.  Keys are unique by `dictInsert`, so first match suffices. -/
def dictLookup (m : List (Nat × Nat)) (k : Nat) : Option Nat :=
  (m.find? (fun p => p.1 == k)).map (fun p => p.2)

/-- The loop of usblock.py lines 99-106 building `self.__cfgs_map`:
`self.__cfgs_map[cfg.bConfigurationValue] = cfg.index` for each
configuration in order. -/
def buildCfgsMapAux : List Configuration → List (Nat × Nat) → List (Nat × Nat)
  | [], m => m
  | c :: rest, m => buildCfgsMapAux rest (dictInsert m c.bConfigurationValue c.index)

/-- The value-to-index dictionary `self.__cfgs_map` of a constructed
`UsbDevice` (usblock.py line 106). -/
def cfgsMap (d : UsbDeviceState) : List (Nat × Nat) := buildCfgsMapAux d.cfgs []

/-- Embedding of `UsbDevice.__cfg_value_to_index` (usblock.py lines
178-182): `self.__cfgs_map[num] + 1`; `none` is the KeyError case. -/
def cfgValueToIndex (d : UsbDeviceState) (num : Nat) : Option Nat :=
  (dictLookup (cfgsMap d) num).map (fun i => i + 1)

/-- Embedding of `UsbDevice.__cfg_index_to_value` (usblock.py lines
184-188): `list(keys)[list(values).index(num)]`, i.e. the first stored key
whose value equals `num`; `none` is the ValueError case of `.index`. -/
def cfgIndexToValue (d : UsbDeviceState) (num : Nat) : Option Nat :=
  ((cfgsMap d).find? (fun p => p.2 == num)).map (fun p => p.1)

/-- Embedding of `UsbDevice.get_active_configuration` (usblock.py lines
141-151), with the result of the sysfs read of `bConfigurationValue`
passed in: `none` when the read raises or `to_int` yields `None`, `some v`
when it yields the integer `v`.  A failed read or a value outside
`self.__cfgs_map` both land in the bare `except` and return `-1`. -/
def getActiveConfiguration (d : UsbDeviceState) (readValue : Option Nat) : Int :=
  match readValue with
  | none => -1
  | some v =>
    match cfgValueToIndex d v with
    | none => -1
    | some i => (i : Int)

/-- Embedding of `UsbDevice.set_configuration` (usblock.py lines 165-170):
the configuration value sent to the device for the 1-based index `num`,
namely `self.__cfg_index_to_value(num - 1)`; `none` means the lookup
raises ValueError and the exception escapes. -/
def setConfigurationValue (d : UsbDeviceState) (num : Nat) : Option Nat :=
  cfgIndexToValue d (num - 1)

/-- Embedding of the interface path construction of usblock.py line 282:
`f"{path}/{path.rsplit('/',1)[1]}:{cfg.bConfigurationValue}.{intf.index}"`. -/
def usblockIntfPath (devPath : String) (cfgValue intfIndex : Nat) : String :=
  devPath ++ "/" ++ rsplitLast devPath ++ ":" ++ pyStr cfgValue ++ "." ++ pyStr intfIndex

/-- Embedding of the interface path construction of usblockdown.py line 145:
`f"{path}/{path.rsplit('/',1)[1]}:{cfg.index+1}.{intf.index}"` - the
0-based enumeration index plus one where usblock.py puts the
configuration value. -/
def usblockdownIntfPath (devPath : String) (cfgIndex intfIndex : Nat) : String :=
  devPath ++ "/" ++ rsplitLast devPath ++ ":" ++ pyStr (cfgIndex + 1) ++ "." ++ pyStr intfIndex

/-- Modelled from the spec: the kernel names an interface directory
`<device>:<configuration value>.<interface index>` under the device
directory.  Used only to compare the two programs' path constructions
against the kernel convention in the refinement claim. -/
def kernelIntfName (devBase : String) (cfgValue intfIndex : Nat) : String :=
  devBase ++ ":" ++ pyStr cfgValue ++ "." ++ pyStr intfIndex

/-- The interface sysfs path usblock.py builds for interface `intf` of
configuration `cfg` of device `d` (usblock.py line 282). -/
def intfSysfsPath (d : UsbDeviceState) (cfg : Configuration) (intf : Interface) : String :=
  usblockIntfPath d.path cfg.bConfigurationValue intf.index

/-! ## The external world: stdin and sysfs as an oracle -/

/-- Oracle for everything outside the program, consumed front to back:
`stdin` holds the operator's lines (`sys.stdin.readline().rstrip()`; an
exhausted list models end-of-file, where Python readline returns the empty
string, itself an unrecognized input); `authOk` gives, per attempted write
to an interface `authorized` attribute, whether the `open` succeeds
(`false` is the FileNotFoundError branch); `pathEx` gives the answer of
each `__sysfs_path_exists` check; `activeCfg` gives, per read of
`bConfigurationValue` in `get_active_configuration`, `none` when the read
or `to_int` fails and `some v` for a successfully read integer `v`.
Exhausted `authOk` / `pathEx` / `activeCfg` lists default to success /
existing / failed-read respectively; concrete runs in the theorems below
always supply explicit entries where the defaults would matter. -/
structure Env where
  stdin : List String
  authOk : List Bool
  pathEx : List Bool
  activeCfg : List (Option Nat)
deriving DecidableEq, Repr

/-- Read one operator line (empty string at end-of-file). -/
def takeStdin (e : Env) : String × Env :=
  (e.stdin.headD "", { e with stdin := e.stdin.tail })

/-- Consume the outcome of the next `authorized`-attribute write attempt. -/
def takeAuthOk (e : Env) : Bool × Env :=
  (e.authOk.headD true, { e with authOk := e.authOk.tail })

/-- Consume the outcome of the next `__sysfs_path_exists` check. -/
def takePathEx (e : Env) : Bool × Env :=
  (e.pathEx.headD true, { e with pathEx := e.pathEx.tail })

/-- Consume the outcome of the next `bConfigurationValue` read. -/
def takeActiveCfg (e : Env) : Option Nat × Env :=
  (e.activeCfg.headD none, { e with activeCfg := e.activeCfg.tail })

/-- The sysfs writes the programs perform. -/
inductive SysAction where
  /-- Write "1" to `<interface path>/authorized`
  (usblock.py lines 345-349, usblockdown.py lines 130-132). -/
  | writeAuthorized (path : String)
  /-- Write the interface name to `/sys/bus/usb/drivers_probe`
  (usblock.py lines 353-355). -/
  | writeDriversProbe (name : String)
  /-- The SET_CONFIGURATION request of `dev.set_configuration(value)`
  (usblock.py line 170), the spec's `bConfigurationValue` write. -/
  | setConfigurationReq (value : Nat)
  /-- Write to a root hub's `interface_authorized_default`
  (usblock.py lines 214-222). -/
  | writeDefaultPolicy (root : String) (value : String)
deriving DecidableEq, Repr

/-- Observable trace entries of a session: operator prompts, the
post-unlock existence check (a sysfs read), and sysfs writes. -/
inductive Event where
  /-- The configuration choice prompt of `__handle_device` lines 254-257. -/
  | promptConfigSelect
  /-- The per-interface 1/2/other prompt of `__handle_configuration`
  lines 283-288, tagged with the examined 1-based configuration choice
  and the interface index. -/
  | promptInterface (choice : Nat) (intfIndex : Nat)
  /-- The "Continue with configuration result?" prompt of
  `__handle_configuration_error` lines 326-331. -/
  | promptContinue (result : Nat)
  /-- The `__sysfs_path_exists` check of line 357 on the given path. -/
  | checkExists (path : String)
  /-- A sysfs write. -/
  | act (a : SysAction)
deriving DecidableEq, Repr

/-- Return-value constants of `UsbLock` (usblock.py lines 191-193). -/
def ERR_SUCCESS : Nat := 0

/-- Constant `ERR_USB_DEV_REMOVED` (usblock.py line 192). -/
def ERR_USB_DEV_REMOVED : Nat := 1

/-- Constant `ERR_USB_CFG_DISAPPEARED` (usblock.py line 193). -/
def ERR_USB_CFG_DISAPPEARED : Nat := 2

/-- Embedding of `UsbLock.__unlock_single_interface` (usblock.py lines
338-360): try to write "1" to `path + '/authorized'` (FileNotFoundError
gives `ERR_USB_DEV_REMOVED` with no write performed); if `probe` write the
interface name to `drivers_probe`; then - unconditionally, for both probe
and no-probe calls - run the `__sysfs_path_exists` check on the
`authorized` path, answering `ERR_USB_CFG_DISAPPEARED` when it is gone. -/
def unlockSingleInterface (p : String) (probe : Bool) (env : Env) :
    Nat × Env × List Event :=
  let intfName := rsplitLast p
  let pAuth := p ++ "/authorized"
  let res := takeAuthOk env
  if res.1 then
    let probeEvs := if probe then [Event.act (SysAction.writeDriversProbe intfName)] else []
    let resEx := takePathEx res.2
    let evs := Event.act (SysAction.writeAuthorized pAuth) :: probeEvs ++ [Event.checkExists pAuth]
    if resEx.1 then (ERR_SUCCESS, resEx.2, evs) else (ERR_USB_CFG_DISAPPEARED, resEx.2, evs)
  else (ERR_USB_DEV_REMOVED, res.2, [])

/-- The `while True` input loop of `__handle_configuration_error` lines
330-336: read lines until one equals "y" (`some true`) or "n"
(`some false`); an exhausted stdin means Python readline returns ""
forever and the loop never exits, reported as `none`. -/
def ynLoopStdin : List String → Option Bool × List String
  | [] => (none, [])
  | l :: rest =>
    if l = "y" then (some true, rest)
    else if l = "n" then (some false, rest)
    else ynLoopStdin rest

/-- What `__handle_configuration_error` hands back to its caller. -/
inductive ErrResult where
  /-- An explicit `return` of the integer `v`. -/
  | ret (v : Int)
  /-- Falling off the end of the function: Python returns `None`. -/
  | retNone
  /-- The y/n loop never receives "y" or "n": the process blocks. -/
  | blocked
deriving DecidableEq, Repr

/-- Embedding of `UsbLock.__handle_configuration_error` (usblock.py lines
313-336).  `ERR_USB_DEV_REMOVED` returns `-1`; `ERR_USB_CFG_DISAPPEARED`
re-reads the active configuration and, when it is positive, prompts
"Continue with configuration result? [y/n]" in a loop; when it is not
(read failed or value outside the stored map) control falls off the end
of the function, returning Python `None` (`retNone`). -/
def handleConfigurationError (d : UsbDeviceState) (retval : Nat) (env : Env) :
    ErrResult × Env × List Event :=
  if retval = ERR_USB_DEV_REMOVED then (ErrResult.ret (-1), env, [])
  else if retval = ERR_USB_CFG_DISAPPEARED then
    let res := takeActiveCfg env
    let result := getActiveConfiguration d res.1
    if 0 < result then
      let yn := ynLoopStdin res.2.stdin
      let env2 := { res.2 with stdin := yn.2 }
      let evs := [Event.promptContinue result.toNat]
      match yn.1 with
      | some true => (ErrResult.ret result, env2, evs)
      | some false => (ErrResult.ret (-1), env2, evs)
      | none => (ErrResult.blocked, env2, evs)
    else (ErrResult.retNone, res.2, [])
  else (ErrResult.retNone, env, [])

/-- How the interface loop of `__handle_configuration` ends. -/
inductive LoopExit where
  /-- The `for` loop exhausted all interfaces without an unlock failure. -/
  | finished
  /-- An unlock failed and the error handler returned a negative result:
  `if result >= 0` is false and the function returns. -/
  | abandoned
  /-- An unlock failed and the error handler returned `c >= 0`: the code
  recurses into `self.__handle_configuration(c)`. -/
  | recurse (c : Nat)
  /-- The error handler returned Python `None` and the comparison
  `None >= 0` raises TypeError. -/
  | typeErr
  /-- The error handler blocked forever on its input loop. -/
  | blocked
deriving DecidableEq, Repr

/-- Map the error handler's return value through the caller's
`result = ...; if result >= 0: recurse; return` logic of usblock.py lines
308-311.  Comparing Python `None` with `0` raises TypeError. -/
def afterError : ErrResult → LoopExit
  | ErrResult.ret v => if 0 ≤ v then LoopExit.recurse v.toNat else LoopExit.abandoned
  | ErrResult.retNone => LoopExit.typeErr
  | ErrResult.blocked => LoopExit.blocked

/-- Embedding of the `for intf in cfg` loop of `__handle_configuration`
(usblock.py lines 281-311): prompt 1/2/other per interface; "1" unlocks
with a driver probe, "2" without; any other line keeps the interface
locked and moves on.  A non-`ERR_SUCCESS` unlock result leaves the loop
through the error handler. -/
def examineLoop (d : UsbDeviceState) (choice : Nat) (cfg : Configuration) :
    List Interface → Env → LoopExit × Env × List Event
  | [], env => (LoopExit.finished, env, [])
  | intf :: rest, env =>
    let pathIntf := intfSysfsPath d cfg intf
    let rLine := takeStdin env
    let pev := Event.promptInterface choice intf.index
    if rLine.1 = "1" then
      let u := unlockSingleInterface pathIntf true rLine.2
      if u.1 = ERR_SUCCESS then
        let k := examineLoop d choice cfg rest u.2.1
        (k.1, k.2.1, pev :: u.2.2 ++ k.2.2)
      else
        let h := handleConfigurationError d u.1 u.2.1
        (afterError h.1, h.2.1, pev :: u.2.2 ++ h.2.2)
    else if rLine.1 = "2" then
      let u := unlockSingleInterface pathIntf false rLine.2
      if u.1 = ERR_SUCCESS then
        let k := examineLoop d choice cfg rest u.2.1
        (k.1, k.2.1, pev :: u.2.2 ++ k.2.2)
      else
        let h := handleConfigurationError d u.1 u.2.1
        (afterError h.1, h.2.1, pev :: u.2.2 ++ h.2.2)
    else
      let k := examineLoop d choice cfg rest rLine.2
      (k.1, k.2.1, pev :: k.2.2)

/-- Final outcome of a session (or of one monitor dispatch). -/
inductive Outcome where
  /-- Control returns normally to the caller. -/
  | done
  /-- The `None >= 0` comparison raised TypeError; nothing catches it
  below `main`, so the process prints Panic and exits 1. -/
  | typeError
  /-- A ValueError / IndexError escaped from the configuration lookup;
  also uncaught below `main`. -/
  | pyError
  /-- The process blocked forever in an input loop. -/
  | blocked
  /-- Fuel for the `__handle_configuration` recursion ran out (a modelling
  artifact only; every theorem supplies ample fuel). -/
  | fuelOut
deriving DecidableEq, Repr

/-- Whether an escaped exception makes `main` (usblock.py lines 404-406)
print Panic and call `sys.exit(1)`. -/
def terminatesProcess : Outcome → Bool
  | Outcome.typeError => true
  | Outcome.pyError => true
  | _ => false

/-- Embedding of `UsbLock.__handle_configuration` (usblock.py lines
266-311): apply the configuration with `set_configuration(choice)` (a
failed value lookup raises), load `self.__cfgs[choice - 1]`, run the
interface loop, and on a `recurse c` exit call itself on `c`.  `fuel`
bounds only the recursion depth. -/
def handleConfiguration (d : UsbDeviceState) : Nat → Nat → Env → Outcome × Env × List Event
  | _, 0, env => (Outcome.fuelOut, env, [])
  | choice, fuel + 1, env =>
    match setConfigurationValue d choice with
    | none => (Outcome.pyError, env, [])
    | some v =>
      match d.cfgs[choice - 1]? with
      | none => (Outcome.pyError, env, [Event.act (SysAction.setConfigurationReq v)])
      | some cfg =>
        let k := examineLoop d choice cfg cfg.interfaces env
        let evs := Event.act (SysAction.setConfigurationReq v) :: k.2.2
        match k.1 with
        | LoopExit.finished => (Outcome.done, k.2.1, evs)
        | LoopExit.abandoned => (Outcome.done, k.2.1, evs)
        | LoopExit.typeErr => (Outcome.typeError, k.2.1, evs)
        | LoopExit.blocked => (Outcome.blocked, k.2.1, evs)
        | LoopExit.recurse c =>
          let r := handleConfiguration d c fuel k.2.1
          (r.1, r.2.1, evs ++ r.2.2)

/-- Embedding of `UsbLock.__handle_device` (usblock.py lines 243-264):
with more than one configuration, prompt for a choice; `to_int` failure or
an out-of-range number keeps everything locked and returns; a valid choice
is applied with `set_configuration` and handed to
`__handle_configuration`.  A single-configuration device skips the prompt
and examines configuration 1 directly. -/
def handleDevice (d : UsbDeviceState) (env : Env) (fuel : Nat) : Outcome × Env × List Event :=
  let n := d.cfgs.length
  if 1 < n then
    let rLine := takeStdin env
    match toIntPy rLine.1 with
    | some c =>
      if 0 < c ∧ c ≤ (n : Int) then
        match setConfigurationValue d c.toNat with
        | none => (Outcome.pyError, rLine.2, [Event.promptConfigSelect])
        | some v =>
          let r := handleConfiguration d c.toNat fuel rLine.2
          (r.1, r.2.1,
            Event.promptConfigSelect :: Event.act (SysAction.setConfigurationReq v) :: r.2.2)
      else (Outcome.done, rLine.2, [Event.promptConfigSelect])
    | none => (Outcome.done, rLine.2, [Event.promptConfigSelect])
  else
    handleConfiguration d 1 fuel env

/-! ## Device resolution and the monitor loop (usblock.py lines 84-109, 224-241) -/

/-- A live device as enumerated by the descriptor provider
(`usb.core.find(find_all=True)`): its bus number, device address and
configuration list. -/
structure LiveDevice where
  bus : Nat
  address : Nat
  cfgs : List Configuration
deriving DecidableEq, Repr

/-- The sysfs files `UsbDevice.__init__` reads: `none` models an absent
file (the `os.path.isfile` guard fails), `some n` a file whose first line
reads as the integer `n`. -/
structure SysfsDeviceNode where
  devnumFile : Option Nat
  busnumFile : Option Nat
deriving DecidableEq, Repr

/-- The three ways `UsbDevice.__init__` can end. -/
inductive InitResult where
  /-- The `else: raise Exception` branch (usblock.py lines 108-109),
  taken when `devnum` or `busnum` is absent. -/
  | raised
  /-- At least one live device matched: `self.__dev` and the
  configuration bookkeeping are set and `__init__` returns normally. -/
  | resolved (d : UsbDeviceState)
  /-- Both files were readable but no live device matched the bus/address
  pair: the `for` loop body never runs, `self.__dev` is never assigned,
  and `__init__` still returns normally - no exception is raised. -/
  | noDevSet
deriving DecidableEq, Repr

/-- Embedding of `UsbDevice.__init__` (usblock.py lines 84-109).  When both
sysfs files exist it scans the live-device list for matching bus/address;
each match assigns `self.__dev` (the last wins) and appends that device's
configurations, so the resulting state carries the concatenation.  With no
match the constructor falls through without raising. -/
def usbDeviceInit (path : String) (node : SysfsDeviceNode) (live : List LiveDevice) :
    InitResult :=
  match node.devnumFile, node.busnumFile with
  | some devnum, some busnum =>
    match live.filter (fun dv => dv.bus == busnum && dv.address == devnum) with
    | [] => InitResult.noDevSet
    | ms => InitResult.resolved { path := path, cfgs := (ms.map (fun dv => dv.cfgs)).flatten }
  | _, _ => InitResult.raised

/-- One event from the udev monitor: `action`, the `DEVTYPE` property and
`sys_path`. -/
structure UdevEvent where
  action : String
  devtype : String
  sysPath : String
deriving DecidableEq, Repr

/-- What one iteration of the `__monitor` loop (usblock.py lines 233-241)
does with an event. -/
inductive MonitorStepResult where
  /-- The event is not an add of a usb_device: nothing happens. -/
  | notMatched
  /-- `UsbDevice(path)` raised, the `except` printed the error and the
  loop continued - the device is skipped. -/
  | skipped
  /-- `UsbDevice(path)` returned with `self.__dev` unassigned.  The
  `try` only protects the construction, so the subsequent
  `self.__dev.get_device_summary()` in `__handle_device` (line 247)
  hits `self.__dev._get_full_descriptor_str()` (line 117) on the
  missing attribute and the AttributeError propagates uncaught through
  `__monitor` and `enable` to `main`, which prints Panic and exits 1. -/
  | crashedAttrError
  /-- The device resolved and `__handle_device` ran to the outcome. -/
  | handled (o : Outcome)
deriving DecidableEq, Repr

/-- Embedding of one iteration of `UsbLock.__monitor` (usblock.py lines
233-241) together with the fate of the `__handle_device` call it makes. -/
def monitorStep (ev : UdevEvent) (node : SysfsDeviceNode) (live : List LiveDevice)
    (env : Env) (fuel : Nat) : MonitorStepResult :=
  if ev.action = "add" ∧ ev.devtype = "usb_device" then
    match usbDeviceInit ev.sysPath node live with
    | InitResult.raised => MonitorStepResult.skipped
    | InitResult.noDevSet => MonitorStepResult.crashedAttrError
    | InitResult.resolved d => MonitorStepResult.handled (handleDevice d env fuel).1
  else MonitorStepResult.notMatched

/-- A USB root hub directory as seen by `__lock`: its glob path and
whether it exposes the `interface_authorized_default` attribute. -/
structure UsbRoot where
  path : String
  hasDefaultAuthFile : Bool
deriving DecidableEq, Repr

/-- Embedding of `UsbLock.__lock` (usblock.py lines 210-222): for every
root hub exposing `interface_authorized_default`, write "0" when locking
and "1" when unlocking; roots without the attribute are skipped. -/
def lockAll (roots : List UsbRoot) (lock : Bool) : List SysAction :=
  roots.filterMap (fun r =>
    if r.hasDefaultAuthFile then
      some (SysAction.writeDefaultPolicy (r.path ++ "/interface_authorized_default")
        (if lock then "0" else "1"))
    else none)

/-- The `while True` shutdown prompt of `main` (usblock.py lines 394-402):
read lines until one equals "yes" (`some true`, USB is unlocked) or "no"
(`some false`, USB stays locked); any other line re-prompts, and an
exhausted stdin (readline returning "" forever) loops without exit,
reported as `none`. -/
def shutdownPromptLoop : List String → Option Bool
  | [] => none
  | l :: rest =>
    if l = "yes" then some true
    else if l = "no" then some false
    else shutdownPromptLoop rest

/-! ## Helper lemmas: decimal rendering is injective, string cancellation -/

/-- Value of a least-significant-first digit list. -/
def evalDigitsRev : List Nat → Nat
  | [] => 0
  | d :: ds => d + 10 * evalDigitsRev ds

theorem evalDigitsRev_natToDigitsRev : ∀ fuel n, n ≤ fuel →
    evalDigitsRev (natToDigitsRev fuel n) = n := by
  intro fuel
  induction fuel with
  | zero =>
    intro n h
    interval_cases n
    simp [natToDigitsRev, evalDigitsRev]
  | succ f ih =>
    intro n h
    by_cases h0 : n = 0
    · simp [natToDigitsRev, h0, evalDigitsRev]
    · have hlt : n / 10 < n := Nat.div_lt_self (Nat.pos_of_ne_zero h0) (by norm_num)
      have hle : n / 10 ≤ f := by omega
      simp [natToDigitsRev, h0, evalDigitsRev, ih _ hle]
      omega

theorem natToDigitsRev_lt_ten : ∀ fuel n x, x ∈ natToDigitsRev fuel n → x < 10 := by
  intro fuel
  induction fuel with
  | zero =>
    intro n x h
    simp [natToDigitsRev] at h
  | succ f ih =>
    intro n x h
    by_cases h0 : n = 0
    · simp [natToDigitsRev, h0] at h
    · simp only [natToDigitsRev, h0, if_false, List.mem_cons] at h
      rcases h with h | h
      · subst h
        exact Nat.mod_lt _ (by norm_num)
      · exact ih _ _ h

theorem natDigits_lt_ten (n : Nat) : ∀ x ∈ natDigits n, x < 10 := by
  intro x h
  by_cases h0 : n = 0
  · simp [natDigits, h0] at h
    omega
  · simp only [natDigits, h0, if_false, List.mem_reverse] at h
    exact natToDigitsRev_lt_ten n n x h

theorem digitChar_inj_below_ten : ∀ x < 10, ∀ y < 10,
    Nat.digitChar x = Nat.digitChar y → x = y := by decide

theorem map_digitChar_inj : ∀ xs ys : List Nat, (∀ x ∈ xs, x < 10) → (∀ y ∈ ys, y < 10) →
    xs.map Nat.digitChar = ys.map Nat.digitChar → xs = ys := by
  intro xs
  induction xs with
  | nil =>
    intro ys _ _ h
    cases ys with
    | nil => rfl
    | cons y ys => simp at h
  | cons x xs ih =>
    intro ys hx hy h
    cases ys with
    | nil => simp at h
    | cons y ys =>
      simp only [List.map_cons, List.cons.injEq] at h
      have hxy : x = y :=
        digitChar_inj_below_ten x (hx x (by simp)) y (hy y (by simp)) h.1
      subst hxy
      have : xs = ys :=
        ih ys (fun a ha => hx a (by simp [ha])) (fun a ha => hy a (by simp [ha])) h.2
      rw [this]

theorem pyStr_injective : ∀ a b : Nat, pyStr a = pyStr b → a = b := by
  intro a b h
  have hd : (natDigits a).map Nat.digitChar = (natDigits b).map Nat.digitChar :=
    congrArg String.data h
  have hD : natDigits a = natDigits b :=
    map_digitChar_inj _ _ (natDigits_lt_ten a) (natDigits_lt_ten b) hd
  by_cases ha : a = 0 <;> by_cases hb : b = 0
  · rw [ha, hb]
  · exfalso
    simp only [natDigits, ha, hb, if_true, if_false] at hD
    have : natToDigitsRev b b = [0] := by
      have := congrArg List.reverse hD
      simpa using this.symm
    have hev := evalDigitsRev_natToDigitsRev b b (le_refl b)
    rw [this] at hev
    simp [evalDigitsRev] at hev
    exact hb hev.symm
  · exfalso
    simp only [natDigits, ha, hb, if_true, if_false] at hD
    have : natToDigitsRev a a = [0] := by
      have := congrArg List.reverse hD
      simpa using this
    have hev := evalDigitsRev_natToDigitsRev a a (le_refl a)
    rw [this] at hev
    simp [evalDigitsRev] at hev
    exact ha hev.symm
  · simp only [natDigits, ha, hb, if_false] at hD
    have hrev : natToDigitsRev a a = natToDigitsRev b b := List.reverse_injective hD
    have hea := evalDigitsRev_natToDigitsRev a a (le_refl a)
    have heb := evalDigitsRev_natToDigitsRev b b (le_refl b)
    rw [hrev] at hea
    rw [heb] at hea
    exact hea.symm

theorem strAppendCancelLeft {a b c : String} (h : a ++ b = a ++ c) : b = c := by
  have hd : a.data ++ b.data = a.data ++ c.data := by
    have := congrArg String.data h
    simpa [String.data_append] using this
  have : b.data = c.data := List.append_cancel_left hd
  exact congrArg String.mk this

theorem strAppendCancelRight {a b c : String} (h : a ++ b = c ++ b) : a = c := by
  have hd : a.data ++ b.data = c.data ++ b.data := by
    have := congrArg String.data h
    simpa [String.data_append] using this
  have : a.data = c.data := List.append_cancel_right hd
  exact congrArg String.mk this

/-- C10: the interface sysfs path usblock.py builds (embedding the
configuration's bConfigurationValue) equals the path usblockdown.py builds
for the same interface (embedding the 0-based enumeration index plus one)
if and only if the configuration's value equals its 1-based enumeration
position; and the usblock.py path is exactly the device path extended with
the kernel's device:value.interface naming. -/
theorem c10_usblock_vs_usblockdown_paths (devPath : String) (v i j : Nat) :
    (usblockIntfPath devPath v j = usblockdownIntfPath devPath i j ↔ v = i + 1)
  ∧ usblockIntfPath devPath v j =
      devPath ++ "/" ++ kernelIntfName (rsplitLast devPath) v j := by
  constructor
  · constructor
    · intro h
      have h1 : (devPath ++ "/" ++ rsplitLast devPath ++ ":") ++ (pyStr v ++ "." ++ pyStr j) =
          (devPath ++ "/" ++ rsplitLast devPath ++ ":") ++ (pyStr (i + 1) ++ "." ++ pyStr j) := by
        simpa [usblockIntfPath, usblockdownIntfPath, String.append_assoc] using h
      have h2 : pyStr v ++ "." ++ pyStr j = pyStr (i + 1) ++ "." ++ pyStr j :=
        strAppendCancelLeft h1
      have h3 : pyStr v ++ "." = pyStr (i + 1) ++ "." := strAppendCancelRight h2
      have h4 : pyStr v = pyStr (i + 1) := strAppendCancelRight h3
      exact pyStr_injective v (i + 1) h4
    · intro h
      rw [usblockIntfPath, usblockdownIntfPath, h]
  · simp [usblockIntfPath, kernelIntfName, String.append_assoc]

/-! ## Claim C6: the value/index round trip -/

theorem find_snd_of_find_fst : ∀ (m : List (Nat × Nat)),
    (m.map Prod.snd).Nodup → ∀ q : Nat × Nat,
    m.find? (fun p => p.1 == q.1) = some q →
    m.find? (fun p => p.2 == q.2) = some q := by
  intro m
  induction m with
  | nil =>
    intro _ q h
    simp at h
  | cons p rest ih =>
    intro hnd q h
    have hnd2 : p.2 ∉ rest.map Prod.snd ∧ (rest.map Prod.snd).Nodup := by
      simpa [List.nodup_cons] using hnd
    rw [List.find?_cons] at h
    cases hfst : (p.1 == q.1) with
    | true =>
      rw [hfst] at h
      have hpq : p = q := by
        simpa using h
      subst hpq
      rw [List.find?_cons]
      simp
    | false =>
      rw [hfst] at h
      have hqmem : q ∈ rest := List.mem_of_find?_eq_some h
      rw [List.find?_cons]
      cases hsnd : (p.2 == q.2) with
      | true =>
        exfalso
        have hpq2 : p.2 = q.2 := by
          simpa using hsnd
        have : q.2 ∈ rest.map Prod.snd := List.mem_map_of_mem Prod.snd hqmem
        rw [hpq2] at hnd2
        exact hnd2.1 this
      | false =>
        exact ih hnd2.2 q h

/-- Concrete device for the C6 counterexample: a single configuration whose
bConfigurationValue is 1 (stored map entry `1 ↦ 0`). -/
def devC6 : UsbDeviceState :=
  { path := "/sys/devices/pci0/usb1/1-1",
    cfgs := [{ bConfigurationValue := 1, index := 0, interfaces := [] }] }

/-- C6 counterexample: on a resolved device with one configuration of value
1 the stored map is the single pair `1 ↦ 0`, so `__cfg_value_to_index 1`
gives `0 + 1 = 1`; feeding that result straight back,
`__cfg_index_to_value 1` raises ValueError (no stored index equals 1), so
the literal composition `__cfg_index_to_value (__cfg_value_to_index v)` is
not the identity on the map's domain - the claim as stated fails. -/
theorem c6_counterexample_literal_composition_fails :
    (cfgValueToIndex devC6 1).bind (fun i => cfgIndexToValue devC6 i) = none
  ∧ ¬ ((cfgValueToIndex devC6 1).bind (fun i => cfgIndexToValue devC6 i) = some 1) := by
  decide

/-- C6 amended: `__cfg_value_to_index` returns the stored 0-based index plus
one, so the round trip holds after subtracting that one: whenever
`__cfg_value_to_index v = i` on a device whose stored map has pairwise
distinct index values (as resolution produces, the indices being the
distinct pyusb enumeration indices), `__cfg_index_to_value (i - 1) = v`. -/
theorem c6_amended_roundtrip_shifted (d : UsbDeviceState)
    (hsnd : ((cfgsMap d).map Prod.snd).Nodup)
    (v i : Nat) (h : cfgValueToIndex d v = some i) :
    cfgIndexToValue d (i - 1) = some v := by
  unfold cfgValueToIndex dictLookup at h
  rcases hq : (cfgsMap d).find? (fun p => p.1 == v) with _ | q
  · rw [hq] at h
    simp at h
  · rw [hq] at h
    have hi : q.2 + 1 = i := by
      simpa using h
    have hq1 : q.1 = v := by
      have := List.find?_some hq
      simpa using this
    have hfound := find_snd_of_find_fst (cfgsMap d) hsnd q (by rw [hq1]; exact hq)
    unfold cfgIndexToValue
    have hsub : i - 1 = q.2 := by omega
    rw [hsub, hfound]
    simp [hq1]

/-- Concrete device for the C6 witness: two configurations with values 5
and 7 at indices 0 and 1. -/
def devC6w : UsbDeviceState :=
  { path := "/sys/devices/pci0/usb1/1-1",
    cfgs := [{ bConfigurationValue := 5, index := 0, interfaces := [] },
             { bConfigurationValue := 7, index := 1, interfaces := [] }] }

theorem c6_amended_roundtrip_shifted_witness : cfgIndexToValue devC6w 1 = some 7 :=
  c6_amended_roundtrip_shifted devC6w (by decide) 7 2 (by decide)

/-! ## Claims C1-C3: crash paths of resolution and recovery -/

/-- The empty oracle: no operator input, all defaults. -/
def env0 : Env := { stdin := [], authOk := [], pathEx := [], activeCfg := [] }

/-- An attach event for a usb_device, as filtered by `__monitor`. -/
def evAdd : UdevEvent :=
  { action := "add", devtype := "usb_device", sysPath := "/sys/devices/pci0/usb1/1-1" }

/-- C1: with readable devnum and busnum files (devnum 7, busnum 3) but no
live device at bus 3 address 7, `UsbDevice.__init__` returns without ever
assigning `self.__dev` (its `raise` sits only in the missing-file branch),
so the monitor's `except` does not fire, `__handle_device` runs, and the
AttributeError from the unset attribute escapes uncaught - the process
panics and exits instead of skipping the device.  Only when one of the
files is absent does the constructor raise and the monitor skip as the
claim demands. -/
theorem c1_unmatched_device_crashes_monitor :
    monitorStep evAdd { devnumFile := some 7, busnumFile := some 3 }
      [{ bus := 3, address := 9, cfgs := [] }] env0 1 = MonitorStepResult.crashedAttrError
  ∧ monitorStep evAdd { devnumFile := none, busnumFile := some 3 } [] env0 1 =
      MonitorStepResult.skipped := by
  decide

/-- A resolved device with a single configuration of value 5 carrying one
interface - the shape shared by the concrete recovery scenarios. -/
def devOne : UsbDeviceState :=
  { path := "/sys/devices/pci0/usb1/1-1",
    cfgs := [{ bConfigurationValue := 5, index := 0,
               interfaces := [{ index := 0, bAlternateSetting := 0 }] }] }

/-- C2: when the unlock of the only interface fails the post-probe check
(`pathEx` false) and the re-read of the active configuration fails
(`activeCfg` none) or yields a value outside the stored map (99),
`__handle_configuration_error` falls off its end returning Python `None`,
and the caller's `if result >= 0` comparison on `None` raises TypeError -
an exception nothing catches below `main`, so the process exits instead of
abandoning the device and returning to the monitor loop. -/
theorem c2_unknown_active_configuration_raises_typeerror :
    (handleDevice devOne
      { stdin := ["1"], authOk := [true], pathEx := [false], activeCfg := [none] } 3).1 =
        Outcome.typeError
  ∧ (handleDevice devOne
      { stdin := ["1"], authOk := [true], pathEx := [false], activeCfg := [some 99] } 3).1 =
        Outcome.typeError
  ∧ terminatesProcess Outcome.typeError = true := by
  decide

/-- C3: the only configuration (1-based index 1, value 5) is selected, its
unlock fails verification, and the re-read of `bConfigurationValue` still
returns 5, so `get_active_configuration` yields 1 - unchanged from the
selected choice.  The code compares only `result > 0`, never
`result != choice`, so it still offers the operator the "Continue with
configuration 1?" prompt instead of abandoning the device. -/
theorem c3_unchanged_configuration_still_prompted :
    getActiveConfiguration devOne (some 5) = 1
  ∧ Event.promptContinue 1 ∈
      (handleDevice devOne
        { stdin := ["1", "n"], authOk := [true], pathEx := [false],
          activeCfg := [some 5] } 3).2.2 := by
  decide

/-! ## Claim C4: UnlockOnly still verifies -/

/-- Recognizer for driver-probe writes in a trace. -/
def isProbeWrite : Event → Bool
  | Event.act (SysAction.writeDriversProbe _) => true
  | _ => false

/-- C4 counterexample: the operator answers "2" (UnlockOnly) for the only
interface, the authorize write succeeds, and the path then vanishes: the
trace of the session contains the post-action existence check and the
Recovering continue-prompt - so an UnlockOnly decision does perform
post-action verification and does route the session into Recovering,
refuting the claim (no probe is requested, as the trace also shows). -/
theorem c4_counterexample_unlockonly_enters_recovery :
    Event.checkExists "/sys/devices/pci0/usb1/1-1/1-1:5.0/authorized" ∈
      (handleDevice devOne
        { stdin := ["2", "n"], authOk := [true], pathEx := [false],
          activeCfg := [some 5] } 3).2.2
  ∧ Event.promptContinue 1 ∈
      (handleDevice devOne
        { stdin := ["2", "n"], authOk := [true], pathEx := [false],
          activeCfg := [some 5] } 3).2.2
  ∧ (handleDevice devOne
      { stdin := ["2", "n"], authOk := [true], pathEx := [false],
        activeCfg := [some 5] } 3).2.2.all (fun e => !(isProbeWrite e)) = true := by
  decide

/-- C4 amended: an UnlockOnly decision performs the authorize write and no
driver probe, but `__unlock_single_interface` runs the post-action
existence check unconditionally, so when the write succeeded and the path
then vanished it returns `ERR_USB_CFG_DISAPPEARED` and the session enters
the recovery handler. -/
theorem c4_amended_unlockonly_verifies (p : String) (env : Env) :
    (unlockSingleInterface p false env).2.2.filter isProbeWrite = []
  ∧ (env.authOk.headD true = true →
      (unlockSingleInterface p false env).2.2 =
        [Event.act (SysAction.writeAuthorized (p ++ "/authorized")),
         Event.checkExists (p ++ "/authorized")])
  ∧ (env.authOk.headD true = false → (unlockSingleInterface p false env).2.2 = [])
  ∧ ((unlockSingleInterface p false env).1 = ERR_USB_CFG_DISAPPEARED ↔
      env.authOk.headD true = true ∧ env.pathEx.headD true = false) := by
  cases h1 : env.authOk.headD true <;> cases h2 : env.pathEx.headD true <;>
    rw [List.headD_eq_head?_getD] at h1 h2 <;>
    simp [unlockSingleInterface, takeAuthOk, takePathEx, h1, h2, isProbeWrite,
      ERR_SUCCESS, ERR_USB_CFG_DISAPPEARED, ERR_USB_DEV_REMOVED]

theorem c4_amended_unlockonly_verifies_witness :
    (unlockSingleInterface "/sys/devices/pci0/usb1/1-1/1-1:5.0" false
      { stdin := [], authOk := [true], pathEx := [false], activeCfg := [] }).1 =
        ERR_USB_CFG_DISAPPEARED :=
  (c4_amended_unlockonly_verifies "/sys/devices/pci0/usb1/1-1/1-1:5.0"
    { stdin := [], authOk := [true], pathEx := [false], activeCfg := [] }).2.2.2.mpr
    (by constructor <;> rfl)

/-! ## Claim C5: behavior of the interactive prompts on unrecognized input -/

/-- C5 counterexample: the Recovering continue-prompt accepts only "y"/"n",
so even the input "yes" leaves its `while True` loop spinning (it never
returns, let alone falls back to the abandon default), and the shutdown
unlock-prompt loops on the unrecognized input "x" instead of defaulting to
keep-locked (`some false`). -/
theorem c5_counterexample_prompts_never_default :
    (ynLoopStdin ["yes"]).1 = none
  ∧ shutdownPromptLoop ["x"] = none
  ∧ ¬ (shutdownPromptLoop ["x"] = some false) := by
  decide

/-- C5 amended: the per-interface prompt treats every line other than "1"
and "2" (including "y", "yes" or a number) as the safe default, keep
locked, and moves on; the configuration-selection prompt treats every line
that is not a positive integer within `1..num_configurations` under Python
`int()` parsing - a non-integer as well as an out-of-range integer such as
"0" or "99" - as the safe default, keeping everything locked.  The
Recovering continue-prompt however accepts exactly "y"/"n" (not
"yes"/"no") and the shutdown unlock-prompt exactly "yes"/"no", and each
re-reads input forever on any other line (including the empty line Python
readline yields at end of input) instead of falling back to a default. -/
theorem c5_amended_unrecognized_input :
    (∀ (s : String) d choice cfg intf rest ds a p ac, ¬ s = "1" → ¬ s = "2" →
      examineLoop d choice cfg (intf :: rest)
          { stdin := s :: ds, authOk := a, pathEx := p, activeCfg := ac } =
        ((examineLoop d choice cfg rest
            { stdin := ds, authOk := a, pathEx := p, activeCfg := ac }).1,
         (examineLoop d choice cfg rest
            { stdin := ds, authOk := a, pathEx := p, activeCfg := ac }).2.1,
         Event.promptInterface choice intf.index ::
           (examineLoop d choice cfg rest
              { stdin := ds, authOk := a, pathEx := p, activeCfg := ac }).2.2))
  ∧ (∀ (s : String) rest, ¬ s = "y" → ¬ s = "n" → ynLoopStdin (s :: rest) = ynLoopStdin rest)
  ∧ (∀ (s : String) rest, ¬ s = "yes" → ¬ s = "no" →
      shutdownPromptLoop (s :: rest) = shutdownPromptLoop rest)
  ∧ ynLoopStdin [] = (none, [])
  ∧ shutdownPromptLoop [] = none
  ∧ (∀ (s : String) d ds a p ac fuel, 1 < d.cfgs.length →
      (∀ c, toIntPy s = some c → ¬ (0 < c ∧ c ≤ (d.cfgs.length : Int))) →
      handleDevice d { stdin := s :: ds, authOk := a, pathEx := p, activeCfg := ac } fuel =
        (Outcome.done, { stdin := ds, authOk := a, pathEx := p, activeCfg := ac },
         [Event.promptConfigSelect])) := by
  refine ⟨?_, ?_, ?_, rfl, rfl, ?_⟩
  · intro s d choice cfg intf rest ds a p ac h1 h2
    simp [examineLoop, takeStdin, h1, h2]
  · intro s rest hy hn
    simp [ynLoopStdin, hy, hn]
  · intro s rest hyes hno
    simp [shutdownPromptLoop, hyes, hno]
  · intro s d ds a p ac fuel hgt hout
    rcases hint : toIntPy s with _ | c
    · simp [handleDevice, takeStdin, hgt, hint]
    · simp [handleDevice, takeStdin, hgt, hint, hout c hint]

/-- A device with two configurations, so the configuration-selection
prompt fires. -/
def devTwo : UsbDeviceState :=
  { path := "/sys/devices/pci0/usb1/1-1",
    cfgs := [{ bConfigurationValue := 5, index := 0,
               interfaces := [{ index := 0, bAlternateSetting := 0 }] },
             { bConfigurationValue := 7, index := 1,
               interfaces := [{ index := 0, bAlternateSetting := 0 }] }] }

theorem c5_amended_unrecognized_input_witness :
    ynLoopStdin ["yes"] = ynLoopStdin []
  ∧ shutdownPromptLoop ["x"] = shutdownPromptLoop []
  ∧ examineLoop devTwo 1 { bConfigurationValue := 5, index := 0, interfaces := [] }
      [{ index := 0, bAlternateSetting := 0 }]
      { stdin := ["y"], authOk := [], pathEx := [], activeCfg := [] } =
      (LoopExit.finished, { stdin := [], authOk := [], pathEx := [], activeCfg := [] },
       [Event.promptInterface 1 0])
  ∧ handleDevice devTwo { stdin := ["99"], authOk := [], pathEx := [], activeCfg := [] } 1 =
      (Outcome.done, { stdin := [], authOk := [], pathEx := [], activeCfg := [] },
       [Event.promptConfigSelect]) := by
  have h := c5_amended_unrecognized_input
  refine ⟨h.2.1 "yes" [] (by decide) (by decide), h.2.2.1 "x" [] (by decide) (by decide),
    h.1 "y" devTwo 1 { bConfigurationValue := 5, index := 0, interfaces := [] }
      { index := 0, bAlternateSetting := 0 } [] [] [] [] [] (by decide) (by decide), ?_⟩
  refine h.2.2.2.2.2 "99" devTwo [] [] [] [] 1 (by decide) ?_
  intro c hc
  have h99 : toIntPy "99" = some 99 := by decide
  rw [h99] at hc
  injection hc with hc2
  subst hc2
  decide

/-! ## Claim C7: a failed unlock stops the iteration -/

/-- C7 counterexample: the unlock of interface 0 of configuration 1 fails
verification, the active-configuration re-read reports the value of the
very configuration that failed, and the operator answers "y" to the
continue-prompt: the code recurses into `__handle_configuration` on the
same configuration and prompts for the failed interface 0 a second time -
so the session can re-prompt for the failed interface. -/
theorem c7_counterexample_failed_interface_reprompted :
    ((handleDevice devOne
      { stdin := ["1", "y", "x"], authOk := [true], pathEx := [false],
        activeCfg := [some 5] } 3).2.2.count (Event.promptInterface 1 0)) = 2 := by
  decide

/-- Whether an event is not a per-interface prompt. -/
def notPromptIntf : Event → Bool
  | Event.promptInterface _ _ => false
  | _ => true

/-- Whether an event, if it is a per-interface prompt, carries the
configuration tag `c`. -/
def promptIntfTag (c : Nat) : Event → Bool
  | Event.promptInterface c2 _ => c2 == c
  | _ => true

theorem tag_of_notPromptIntf (c : Nat) (evs : List Event)
    (h : evs.all notPromptIntf = true) : evs.all (promptIntfTag c) = true := by
  rw [List.all_eq_true] at h ⊢
  intro e he
  have he2 := h e he
  cases e <;> simp [notPromptIntf, promptIntfTag] at he2 ⊢

theorem unlock_no_interface_prompts (p : String) (probe : Bool) (env : Env) :
    (unlockSingleInterface p probe env).2.2.all notPromptIntf = true := by
  cases probe <;> cases hb : env.authOk.headD true <;> cases hx : env.pathEx.headD true <;>
    rw [List.headD_eq_head?_getD] at hb hx <;>
    simp [unlockSingleInterface, takeAuthOk, takePathEx, hb, hx, notPromptIntf]

theorem unlock_prompt_tags (c : Nat) (p : String) (probe : Bool) (env : Env) :
    (unlockSingleInterface p probe env).2.2.all (promptIntfTag c) = true :=
  tag_of_notPromptIntf c _ (unlock_no_interface_prompts p probe env)

/-- The error handler's trace is empty or a single continue-prompt for the
re-read active configuration. -/
theorem errhandler_trace_shape (d : UsbDeviceState) (r : Nat) (env : Env) :
    (handleConfigurationError d r env).2.2 = [] ∨
    (handleConfigurationError d r env).2.2 =
      [Event.promptContinue (getActiveConfiguration d (takeActiveCfg env).1).toNat] := by
  unfold handleConfigurationError
  by_cases h1 : r = ERR_USB_DEV_REMOVED
  · simp [h1]
  · by_cases h2 : r = ERR_USB_CFG_DISAPPEARED
    · by_cases hpos : 0 < getActiveConfiguration d (takeActiveCfg env).1
      · rcases hyn : (ynLoopStdin (takeActiveCfg env).2.stdin).1 with _ | b
        · simp [h1, h2, hpos, hyn, ERR_USB_DEV_REMOVED, ERR_USB_CFG_DISAPPEARED]
        · cases b <;> simp [h1, h2, hpos, hyn, ERR_USB_DEV_REMOVED, ERR_USB_CFG_DISAPPEARED]
      · simp [h1, h2, hpos, ERR_USB_DEV_REMOVED, ERR_USB_CFG_DISAPPEARED]
    · simp [h1, h2]

theorem errhandler_no_interface_prompts (d : UsbDeviceState) (r : Nat) (env : Env) :
    (handleConfigurationError d r env).2.2.all notPromptIntf = true := by
  rcases errhandler_trace_shape d r env with h | h <;> simp [h, notPromptIntf]

theorem errhandler_prompt_tags (c : Nat) (d : UsbDeviceState) (r : Nat) (env : Env) :
    (handleConfigurationError d r env).2.2.all (promptIntfTag c) = true :=
  tag_of_notPromptIntf c _ (errhandler_no_interface_prompts d r env)

/-- When the error handler returns a non-negative result - the only way the
caller recurses - its trace contains the continue-prompt offering exactly
that configuration (the operator was asked and answered "y"). -/
theorem errhandler_ret_continue (d : UsbDeviceState) (r : Nat) (env : Env) (v : Int)
    (hret : (handleConfigurationError d r env).1 = ErrResult.ret v) (hv : 0 ≤ v) :
    Event.promptContinue v.toNat ∈ (handleConfigurationError d r env).2.2 := by
  unfold handleConfigurationError at hret ⊢
  by_cases h1 : r = ERR_USB_DEV_REMOVED
  · simp [h1] at hret
    omega
  · by_cases h2 : r = ERR_USB_CFG_DISAPPEARED
    · by_cases hpos : 0 < getActiveConfiguration d (takeActiveCfg env).1
      · rcases hyn : (ynLoopStdin (takeActiveCfg env).2.stdin).1 with _ | b
        · simp [h1, h2, hpos, hyn, ERR_USB_DEV_REMOVED, ERR_USB_CFG_DISAPPEARED] at hret
        · cases b
          · simp [h1, h2, hpos, hyn, ERR_USB_DEV_REMOVED, ERR_USB_CFG_DISAPPEARED] at hret
            omega
          · simp [h1, h2, hpos, hyn, ERR_USB_DEV_REMOVED, ERR_USB_CFG_DISAPPEARED] at hret ⊢
            rw [hret]
      · simp [h1, h2, hpos, ERR_USB_DEV_REMOVED, ERR_USB_CFG_DISAPPEARED] at hret
    · simp [h1, h2] at hret

/-- Every per-interface prompt a single pass of the loop emits is tagged
with that pass's configuration choice. -/
theorem examine_prompt_tags (d : UsbDeviceState) (choice : Nat) (cfg : Configuration) :
    ∀ (l : List Interface) (env : Env),
    (examineLoop d choice cfg l env).2.2.all (promptIntfTag choice) = true := by
  intro l
  induction l with
  | nil =>
    intro env
    simp [examineLoop]
  | cons intf rest ih =>
    intro env
    by_cases h1 : (takeStdin env).1 = "1"
    · by_cases hu : (unlockSingleInterface (intfSysfsPath d cfg intf) true (takeStdin env).2).1 =
          ERR_SUCCESS
      · simp [examineLoop, h1, hu, List.all_append, promptIntfTag,
          unlock_prompt_tags, ih]
      · simp [examineLoop, h1, hu, List.all_append, promptIntfTag,
          unlock_prompt_tags, errhandler_prompt_tags]
    · by_cases h2 : (takeStdin env).1 = "2"
      · by_cases hu : (unlockSingleInterface (intfSysfsPath d cfg intf) false (takeStdin env).2).1 =
            ERR_SUCCESS
        · simp [examineLoop, h1, h2, hu, List.all_append, promptIntfTag,
            unlock_prompt_tags, ih]
        · simp [examineLoop, h1, h2, hu, List.all_append, promptIntfTag,
            unlock_prompt_tags, errhandler_prompt_tags]
      · simp [examineLoop, h1, h2, promptIntfTag, ih]

/-- When a pass of the loop exits with `recurse c2`, its trace contains the
continue-prompt offering configuration `c2`. -/
theorem examine_recurse_continue (d : UsbDeviceState) (choice : Nat) (cfg : Configuration) :
    ∀ (l : List Interface) (env : Env) (c2 : Nat),
    (examineLoop d choice cfg l env).1 = LoopExit.recurse c2 →
    Event.promptContinue c2 ∈ (examineLoop d choice cfg l env).2.2 := by
  intro l
  induction l with
  | nil =>
    intro env c2 h
    simp [examineLoop] at h
  | cons intf rest ih =>
    intro env c2 h
    by_cases h1 : (takeStdin env).1 = "1"
    · by_cases hu : (unlockSingleInterface (intfSysfsPath d cfg intf) true (takeStdin env).2).1 =
          ERR_SUCCESS
      · simp only [examineLoop, h1, hu, if_true, if_pos] at h ⊢
        exact List.mem_cons_of_mem _ (List.mem_append_right _ (ih _ c2 h))
      · simp only [examineLoop, h1, hu, if_true, if_false, if_neg, if_pos,
          not_false_eq_true] at h ⊢
        rcases hr : (handleConfigurationError d
            (unlockSingleInterface (intfSysfsPath d cfg intf) true (takeStdin env).2).1
            (unlockSingleInterface (intfSysfsPath d cfg intf) true (takeStdin env).2).2.1).1 with
          v | _ | _
        · rw [hr] at h
          by_cases hv : (0 : Int) ≤ v
          · have hmem := errhandler_ret_continue d _ _ v hr hv
            simp [afterError, hv] at h
            rw [h] at hmem
            exact List.mem_cons_of_mem _ (List.mem_append_right _ hmem)
          · simp [afterError, hv] at h
        · rw [hr] at h
          simp [afterError] at h
        · rw [hr] at h
          simp [afterError] at h
    · by_cases h2 : (takeStdin env).1 = "2"
      · by_cases hu : (unlockSingleInterface (intfSysfsPath d cfg intf) false (takeStdin env).2).1 =
            ERR_SUCCESS
        · simp only [examineLoop, h1, h2, hu, if_true, if_false, if_neg, if_pos,
            not_false_eq_true] at h ⊢
          exact List.mem_cons_of_mem _ (List.mem_append_right _ (ih _ c2 h))
        · simp only [examineLoop, h1, h2, hu, if_true, if_false, if_neg, if_pos,
            not_false_eq_true] at h ⊢
          rcases hr : (handleConfigurationError d
              (unlockSingleInterface (intfSysfsPath d cfg intf) false (takeStdin env).2).1
              (unlockSingleInterface (intfSysfsPath d cfg intf) false (takeStdin env).2).2.1).1 with
            v | _ | _
          · rw [hr] at h
            by_cases hv : (0 : Int) ≤ v
            · have hmem := errhandler_ret_continue d _ _ v hr hv
              simp [afterError, hv] at h
              rw [h] at hmem
              exact List.mem_cons_of_mem _ (List.mem_append_right _ hmem)
            · simp [afterError, hv] at h
          · rw [hr] at h
            simp [afterError] at h
          · rw [hr] at h
            simp [afterError] at h
      · simp only [examineLoop, h1, h2, if_false, if_neg, not_false_eq_true] at h ⊢
        exact List.mem_cons_of_mem _ (ih _ c2 h)

/-- A per-interface prompt for configuration `choice` appearing in a
session pass that runs on a different configuration `c` can only come from
a recursion the operator explicitly enabled: the trace then also contains
the continue-prompt offering configuration `choice`. -/
theorem handlecfg_reprompt_needs_continue (d : UsbDeviceState) (choice ix : Nat) :
    ∀ (fuel c : Nat) (env : Env), ¬ c = choice →
    Event.promptInterface choice ix ∈ (handleConfiguration d c fuel env).2.2 →
    Event.promptContinue choice ∈ (handleConfiguration d c fuel env).2.2 := by
  intro fuel
  induction fuel with
  | zero =>
    intro c env hne hmem
    simp [handleConfiguration] at hmem
  | succ f ih =>
    intro c env hne hmem
    unfold handleConfiguration at hmem ⊢
    rcases hv : setConfigurationValue d c with _ | v
    · rw [hv] at hmem
      simp at hmem
    · rw [hv] at hmem
      dsimp only at hmem ⊢
      rcases hc : d.cfgs[c - 1]? with _ | cfg
      · rw [hc] at hmem
        simp at hmem
      · rw [hc] at hmem
        dsimp only at hmem ⊢
        have htags := examine_prompt_tags d c cfg cfg.interfaces env
        rcases hk : (examineLoop d c cfg cfg.interfaces env).1 with _ | _ | c2 | _ | _ <;>
          rw [hk] at hmem <;> dsimp only at hmem ⊢ <;>
          simp only [List.mem_cons, List.mem_append, or_assoc] at hmem ⊢
        · rcases hmem with hmem | hmem
          · exact absurd hmem (by simp)
          · have htag := List.all_eq_true.mp htags _ hmem
            simp [promptIntfTag] at htag
            exact absurd htag.symm hne
        · rcases hmem with hmem | hmem
          · exact absurd hmem (by simp)
          · have htag := List.all_eq_true.mp htags _ hmem
            simp [promptIntfTag] at htag
            exact absurd htag.symm hne
        · rcases hmem with hmem | hmem | hmem
          · exact absurd hmem (by simp)
          · have htag := List.all_eq_true.mp htags _ hmem
            simp [promptIntfTag] at htag
            exact absurd htag.symm hne
          · by_cases hc2 : c2 = choice
            · have hcont := examine_recurse_continue d c cfg cfg.interfaces env c2 hk
              rw [hc2] at hcont
              exact Or.inr (Or.inl hcont)
            · have hcont := ih c2 _ hc2 hmem
              exact Or.inr (Or.inr hcont)
        · rcases hmem with hmem | hmem
          · exact absurd hmem (by simp)
          · have htag := List.all_eq_true.mp htags _ hmem
            simp [promptIntfTag] at htag
            exact absurd htag.symm hne
        · rcases hmem with hmem | hmem
          · exact absurd hmem (by simp)
          · have htag := List.all_eq_true.mp htags _ hmem
            simp [promptIntfTag] at htag
            exact absurd htag.symm hne

/-- C7 amended: a non-`ERR_SUCCESS` unlock at any position stops the
current pass at once, for both failure modes.  When `authorize_interface`
fails with NotFound (`ERR_USB_DEV_REMOVED`), the error handler returns -1
and the pass exits `abandoned` with the failed interface's prompt as its
only event - no interface of the remainder is examined and the failed
interface is never prompted again (the session ends).  When instead the
post-unlock verification reports the path gone
(`ERR_USB_CFG_DISAPPEARED`), the pass likewise ends at the failed
interface: its trace is exactly the prompt, the unlock's own events and
the recovery handler's events, and its exit is whatever the handler
decides.  The handler never emits interface prompts, every interface
prompt of a pass carries that pass's configuration tag, and a re-prompt of
the failed configuration's interfaces from a pass on another
configuration can only follow the continue-prompt offering the failed
configuration (which requires the re-read active configuration to equal
it and the operator to answer "y") - the sole exception, exercised by the
counterexample. -/
theorem c7_amended_failed_unlock_stops_iteration :
    (∀ (d : UsbDeviceState) (choice : Nat) (cfg : Configuration) (intf : Interface)
        (rest : List Interface) (env : Env),
      (env.stdin.headD "" = "1" ∨ env.stdin.headD "" = "2") →
      env.authOk.headD true = false →
      examineLoop d choice cfg (intf :: rest) env =
        (LoopExit.abandoned,
          { stdin := env.stdin.tail, authOk := env.authOk.tail,
            pathEx := env.pathEx, activeCfg := env.activeCfg },
          [Event.promptInterface choice intf.index]))
  ∧ (∀ (d : UsbDeviceState) (choice : Nat) (cfg : Configuration) (intf : Interface)
        (rest : List Interface) (env : Env),
      env.stdin.headD "" = "1" →
      env.authOk.headD true = true →
      env.pathEx.headD true = false →
      examineLoop d choice cfg (intf :: rest) env =
        (afterError (handleConfigurationError d ERR_USB_CFG_DISAPPEARED
            { stdin := env.stdin.tail, authOk := env.authOk.tail,
              pathEx := env.pathEx.tail, activeCfg := env.activeCfg }).1,
         (handleConfigurationError d ERR_USB_CFG_DISAPPEARED
            { stdin := env.stdin.tail, authOk := env.authOk.tail,
              pathEx := env.pathEx.tail, activeCfg := env.activeCfg }).2.1,
         Event.promptInterface choice intf.index ::
           Event.act (SysAction.writeAuthorized (intfSysfsPath d cfg intf ++ "/authorized")) ::
           Event.act (SysAction.writeDriversProbe (rsplitLast (intfSysfsPath d cfg intf))) ::
           Event.checkExists (intfSysfsPath d cfg intf ++ "/authorized") ::
           (handleConfigurationError d ERR_USB_CFG_DISAPPEARED
              { stdin := env.stdin.tail, authOk := env.authOk.tail,
                pathEx := env.pathEx.tail, activeCfg := env.activeCfg }).2.2))
  ∧ (∀ (d : UsbDeviceState) (choice : Nat) (cfg : Configuration) (intf : Interface)
        (rest : List Interface) (env : Env),
      env.stdin.headD "" = "2" →
      env.authOk.headD true = true →
      env.pathEx.headD true = false →
      examineLoop d choice cfg (intf :: rest) env =
        (afterError (handleConfigurationError d ERR_USB_CFG_DISAPPEARED
            { stdin := env.stdin.tail, authOk := env.authOk.tail,
              pathEx := env.pathEx.tail, activeCfg := env.activeCfg }).1,
         (handleConfigurationError d ERR_USB_CFG_DISAPPEARED
            { stdin := env.stdin.tail, authOk := env.authOk.tail,
              pathEx := env.pathEx.tail, activeCfg := env.activeCfg }).2.1,
         Event.promptInterface choice intf.index ::
           Event.act (SysAction.writeAuthorized (intfSysfsPath d cfg intf ++ "/authorized")) ::
           Event.checkExists (intfSysfsPath d cfg intf ++ "/authorized") ::
           (handleConfigurationError d ERR_USB_CFG_DISAPPEARED
              { stdin := env.stdin.tail, authOk := env.authOk.tail,
                pathEx := env.pathEx.tail, activeCfg := env.activeCfg }).2.2))
  ∧ (∀ (d : UsbDeviceState) (r : Nat) (env : Env),
      (handleConfigurationError d r env).2.2.all notPromptIntf = true)
  ∧ (∀ (d : UsbDeviceState) (choice : Nat) (cfg : Configuration) (l : List Interface)
        (env : Env),
      (examineLoop d choice cfg l env).2.2.all (promptIntfTag choice) = true)
  ∧ (∀ (d : UsbDeviceState) (choice ix fuel c : Nat) (env : Env), ¬ c = choice →
      Event.promptInterface choice ix ∈ (handleConfiguration d c fuel env).2.2 →
      Event.promptContinue choice ∈ (handleConfiguration d c fuel env).2.2) := by
  refine ⟨?_, ?_, ?_, errhandler_no_interface_prompts, examine_prompt_tags,
    fun d choice ix fuel c env => handlecfg_reprompt_needs_continue d choice ix fuel c env⟩
  · intro d choice cfg intf rest env hline hfail
    rw [List.headD_eq_head?_getD] at hfail
    rcases hline with h | h <;> rw [List.headD_eq_head?_getD] at h <;>
      simp [examineLoop, takeStdin, takeAuthOk, unlockSingleInterface,
        handleConfigurationError, afterError, h, hfail,
        ERR_SUCCESS, ERR_USB_DEV_REMOVED, ERR_USB_CFG_DISAPPEARED]
  · intro d choice cfg intf rest env hline hok hgone
    rw [List.headD_eq_head?_getD] at hline hok hgone
    simp [examineLoop, takeStdin, takeAuthOk, takePathEx, unlockSingleInterface,
      hline, hok, hgone, ERR_SUCCESS, ERR_USB_CFG_DISAPPEARED]
  · intro d choice cfg intf rest env hline hok hgone
    rw [List.headD_eq_head?_getD] at hline hok hgone
    simp [examineLoop, takeStdin, takeAuthOk, takePathEx, unlockSingleInterface,
      hline, hok, hgone, ERR_SUCCESS, ERR_USB_CFG_DISAPPEARED]

theorem c7_amended_failed_unlock_stops_iteration_witness :
    examineLoop devOne 1
        { bConfigurationValue := 5, index := 0,
          interfaces := [{ index := 0, bAlternateSetting := 0 }] }
        [{ index := 0, bAlternateSetting := 0 }, { index := 1, bAlternateSetting := 0 }]
        { stdin := ["2"], authOk := [true], pathEx := [false], activeCfg := [] } =
      (LoopExit.typeErr, { stdin := [], authOk := [], pathEx := [], activeCfg := [] },
       [Event.promptInterface 1 0,
        Event.act (SysAction.writeAuthorized "/sys/devices/pci0/usb1/1-1/1-1:5.0/authorized"),
        Event.checkExists "/sys/devices/pci0/usb1/1-1/1-1:5.0/authorized"])
  ∧ Event.promptContinue 1 ∈ (handleConfiguration devTwo 2 3
      { stdin := ["1", "y", "x"], authOk := [true], pathEx := [false],
        activeCfg := [some 5] }).2.2 := by
  have h := c7_amended_failed_unlock_stops_iteration
  constructor
  · exact h.2.2.1 devOne 1
      { bConfigurationValue := 5, index := 0,
        interfaces := [{ index := 0, bAlternateSetting := 0 }] }
      { index := 0, bAlternateSetting := 0 } [{ index := 1, bAlternateSetting := 0 }]
      { stdin := ["2"], authOk := [true], pathEx := [false], activeCfg := [] }
      rfl rfl rfl
  · exact h.2.2.2.2.2 devTwo 1 0 3 2
      { stdin := ["1", "y", "x"], authOk := [true], pathEx := [false], activeCfg := [some 5] }
      (by decide) (by decide)

/-! ## Claim C8: decisions determine exactly the sysfs writes -/

/-- The authorize-write paths of a trace, in order. -/
def authWrites : List Event → List String
  | [] => []
  | Event.act (SysAction.writeAuthorized p) :: rest => p :: authWrites rest
  | _ :: rest => authWrites rest

/-- The driver-probe write payloads of a trace, in order. -/
def probeWrites : List Event → List String
  | [] => []
  | Event.act (SysAction.writeDriversProbe s) :: rest => s :: probeWrites rest
  | _ :: rest => probeWrites rest

/-- Whether an event is a prompt, an existence check, an authorize write or
a probe write - everything the interface loop is allowed to emit. -/
def loopEventOk : Event → Bool
  | Event.act (SysAction.writeAuthorized _) => true
  | Event.act (SysAction.writeDriversProbe _) => true
  | Event.act _ => false
  | _ => true

/-- Specification-side list: the authorize-attribute paths of exactly those
interfaces whose operator line is "1" (UnlockAndProbe) or "2" (UnlockOnly),
in interface order. -/
def decidedUnlockPaths (d : UsbDeviceState) (cfg : Configuration) :
    List Interface → List String → List String
  | [], _ => []
  | intf :: rest, ds =>
    if ds.headD "" = "1" ∨ ds.headD "" = "2" then
      (intfSysfsPath d cfg intf ++ "/authorized") :: decidedUnlockPaths d cfg rest ds.tail
    else decidedUnlockPaths d cfg rest ds.tail

/-- Specification-side list: the kernel interface names of exactly those
interfaces whose operator line is "1" (UnlockAndProbe), in order. -/
def decidedProbeNames (d : UsbDeviceState) (cfg : Configuration) :
    List Interface → List String → List String
  | [], _ => []
  | intf :: rest, ds =>
    if ds.headD "" = "1" then
      rsplitLast (intfSysfsPath d cfg intf) :: decidedProbeNames d cfg rest ds.tail
    else decidedProbeNames d cfg rest ds.tail

theorem authWrites_append (a b : List Event) :
    authWrites (a ++ b) = authWrites a ++ authWrites b := by
  induction a with
  | nil => simp [authWrites]
  | cons e rest ih =>
    cases e with
    | act a2 => cases a2 <;> simp [authWrites, ih]
    | promptConfigSelect => simp [authWrites, ih]
    | promptInterface c i => simp [authWrites, ih]
    | promptContinue r => simp [authWrites, ih]
    | checkExists p => simp [authWrites, ih]

theorem probeWrites_append (a b : List Event) :
    probeWrites (a ++ b) = probeWrites a ++ probeWrites b := by
  induction a with
  | nil => simp [probeWrites]
  | cons e rest ih =>
    cases e with
    | act a2 => cases a2 <;> simp [probeWrites, ih]
    | promptConfigSelect => simp [probeWrites, ih]
    | promptInterface c i => simp [probeWrites, ih]
    | promptContinue r => simp [probeWrites, ih]
    | checkExists p => simp [probeWrites, ih]

/-- C8: over a fixed interface list with the operator's decision lines
`ds` and a sysfs world in which every write succeeds and no path vanishes,
the interface loop finishes, its authorize writes are exactly those of the
interfaces decided "1" or "2" (in order), its probe requests exactly those
of the interfaces decided "1", and it emits no other sysfs write at all -
in particular an interface decided by any other line (Locked) contributes
nothing. -/
theorem c8_decisions_determine_writes (d : UsbDeviceState) (choice : Nat)
    (cfg : Configuration) :
    ∀ (l : List Interface) (ds : List String),
    (examineLoop d choice cfg l
        { stdin := ds, authOk := [], pathEx := [], activeCfg := [] }).1 = LoopExit.finished
  ∧ authWrites (examineLoop d choice cfg l
        { stdin := ds, authOk := [], pathEx := [], activeCfg := [] }).2.2 =
      decidedUnlockPaths d cfg l ds
  ∧ probeWrites (examineLoop d choice cfg l
        { stdin := ds, authOk := [], pathEx := [], activeCfg := [] }).2.2 =
      decidedProbeNames d cfg l ds
  ∧ (examineLoop d choice cfg l
        { stdin := ds, authOk := [], pathEx := [], activeCfg := [] }).2.2.all loopEventOk =
      true := by
  intro l
  induction l with
  | nil =>
    intro ds
    simp [examineLoop, decidedUnlockPaths, decidedProbeNames, authWrites, probeWrites]
  | cons intf rest ih =>
    intro ds
    cases ds with
    | nil =>
      obtain ⟨ihA, ihB, ihC, ihD⟩ := ih []
      simp [examineLoop, takeStdin, decidedUnlockPaths, decidedProbeNames,
        authWrites, probeWrites, loopEventOk, ihA, ihB, ihC, ihD]
    | cons s ds2 =>
      obtain ⟨ihA, ihB, ihC, ihD⟩ := ih ds2
      by_cases h1 : s = "1"
      · subst h1
        simp [examineLoop, takeStdin, unlockSingleInterface, takeAuthOk, takePathEx,
          ERR_SUCCESS, decidedUnlockPaths, decidedProbeNames, authWrites, probeWrites,
          authWrites_append, probeWrites_append, loopEventOk, ihA, ihB, ihC, ihD]
      · by_cases h2 : s = "2"
        · subst h2
          simp [examineLoop, takeStdin, unlockSingleInterface, takeAuthOk, takePathEx,
            ERR_SUCCESS, decidedUnlockPaths, decidedProbeNames, authWrites, probeWrites,
            authWrites_append, probeWrites_append, loopEventOk, ihA, ihB, ihC, ihD]
        · simp [examineLoop, takeStdin, h1, h2, decidedUnlockPaths, decidedProbeNames,
            authWrites, probeWrites, loopEventOk, ihA, ihB, ihC, ihD]

/-! ## Claim C9: the session never touches the default-authorization policy -/

/-- Whether an event is something an authorization session is allowed to
emit: prompts and existence checks (reads), authorize writes,
driver-probe writes and SET_CONFIGURATION requests - everything except a
write to `interface_authorized_default`. -/
def sessionWriteAllowed : Event → Bool
  | Event.act (SysAction.writeAuthorized _) => true
  | Event.act (SysAction.writeDriversProbe _) => true
  | Event.act (SysAction.setConfigurationReq _) => true
  | Event.act (SysAction.writeDefaultPolicy _ _) => false
  | _ => true

/-- Whether a sysfs action is a write to `interface_authorized_default`. -/
def isDefaultPolicyWrite : SysAction → Bool
  | SysAction.writeDefaultPolicy _ _ => true
  | _ => false

theorem unlock_events_allowed (p : String) (probe : Bool) (env : Env) :
    (unlockSingleInterface p probe env).2.2.all sessionWriteAllowed = true := by
  cases probe <;> cases hb : env.authOk.headD true <;> cases hx : env.pathEx.headD true <;>
    rw [List.headD_eq_head?_getD] at hb hx <;>
    simp [unlockSingleInterface, takeAuthOk, takePathEx, hb, hx, sessionWriteAllowed]

theorem errhandler_events_allowed (d : UsbDeviceState) (r : Nat) (env : Env) :
    (handleConfigurationError d r env).2.2.all sessionWriteAllowed = true := by
  unfold handleConfigurationError
  by_cases h1 : r = ERR_USB_DEV_REMOVED
  · simp [h1]
  · by_cases h2 : r = ERR_USB_CFG_DISAPPEARED
    · by_cases hpos : 0 < getActiveConfiguration d (takeActiveCfg env).1
      · rcases hyn : (ynLoopStdin (takeActiveCfg env).2.stdin).1 with _ | b
        · simp [h1, h2, hpos, hyn, sessionWriteAllowed,
            ERR_USB_DEV_REMOVED, ERR_USB_CFG_DISAPPEARED]
        · cases b <;> simp [h1, h2, hpos, hyn, sessionWriteAllowed,
            ERR_USB_DEV_REMOVED, ERR_USB_CFG_DISAPPEARED]
      · simp [h1, h2, hpos, ERR_USB_DEV_REMOVED, ERR_USB_CFG_DISAPPEARED]
    · simp [h1, h2]

theorem examine_events_allowed (d : UsbDeviceState) (choice : Nat) (cfg : Configuration) :
    ∀ (l : List Interface) (env : Env),
    (examineLoop d choice cfg l env).2.2.all sessionWriteAllowed = true := by
  intro l
  induction l with
  | nil =>
    intro env
    simp [examineLoop]
  | cons intf rest ih =>
    intro env
    by_cases h1 : (takeStdin env).1 = "1"
    · by_cases hu : (unlockSingleInterface (intfSysfsPath d cfg intf) true (takeStdin env).2).1 =
          ERR_SUCCESS
      · simp [examineLoop, h1, hu, List.all_append, sessionWriteAllowed,
          unlock_events_allowed, ih]
      · simp [examineLoop, h1, hu, List.all_append, sessionWriteAllowed,
          unlock_events_allowed, errhandler_events_allowed]
    · by_cases h2 : (takeStdin env).1 = "2"
      · by_cases hu : (unlockSingleInterface (intfSysfsPath d cfg intf) false (takeStdin env).2).1 =
            ERR_SUCCESS
        · simp [examineLoop, h1, h2, hu, List.all_append, sessionWriteAllowed,
            unlock_events_allowed, ih]
        · simp [examineLoop, h1, h2, hu, List.all_append, sessionWriteAllowed,
            unlock_events_allowed, errhandler_events_allowed]
      · simp [examineLoop, h1, h2, sessionWriteAllowed, ih]

theorem handlecfg_events_allowed (d : UsbDeviceState) : ∀ (fuel choice : Nat) (env : Env),
    (handleConfiguration d choice fuel env).2.2.all sessionWriteAllowed = true := by
  intro fuel
  induction fuel with
  | zero =>
    intro choice env
    simp [handleConfiguration]
  | succ f ih =>
    intro choice env
    unfold handleConfiguration
    rcases hv : setConfigurationValue d choice with _ | v
    · simp
    · rcases hc : d.cfgs[choice - 1]? with _ | cfg
      · simp [sessionWriteAllowed]
      · have hall := examine_events_allowed d choice cfg cfg.interfaces env
        rcases hk : (examineLoop d choice cfg cfg.interfaces env).1 with _ | _ | c | _ | _ <;>
          simp [hk, List.all_append, sessionWriteAllowed, hall, ih]

/-- C9: an authorization session - everything `__handle_device` does from
entry until control returns to the monitor loop - emits only per-interface
authorize writes, SET_CONFIGURATION requests and driver-probe writes,
never a write to `interface_authorized_default`; and conversely the
startup/shutdown `__lock` emits only `interface_authorized_default`
writes. -/
theorem c9_session_never_writes_default_policy :
    (∀ (d : UsbDeviceState) (env : Env) (fuel : Nat),
      (handleDevice d env fuel).2.2.all sessionWriteAllowed = true)
  ∧ (∀ (roots : List UsbRoot) (lock : Bool),
      (lockAll roots lock).all isDefaultPolicyWrite = true) := by
  constructor
  · intro d env fuel
    unfold handleDevice
    by_cases hn : 1 < d.cfgs.length
    · rcases hi : toIntPy (takeStdin env).1 with _ | c
      · simp [hn, hi, sessionWriteAllowed]
      · by_cases hc : 0 < c ∧ c ≤ (d.cfgs.length : Int)
        · rcases hv : setConfigurationValue d c.toNat with _ | v
          · simp [hn, hi, hc, hv, sessionWriteAllowed]
          · simp [hn, hi, hc, hv, sessionWriteAllowed, handlecfg_events_allowed]
        · simp [hn, hi, hc, sessionWriteAllowed]
    · simp [hn, handlecfg_events_allowed]
  · intro roots lock
    induction roots with
    | nil => simp [lockAll]
    | cons r rest ih =>
      by_cases hr : r.hasDefaultAuthFile <;>
        simp only [lockAll, List.filterMap_cons, hr, if_true, if_false, List.all_cons] <;>
        simp [isDefaultPolicyWrite, lockAll] at ih ⊢ <;> exact ih

end USBlock
